import Mathlib

/-!
Shallow embedding of `src/my-sample.py` (iotlab-edge): a Google Cloud IoT Core
MQTT device client.  The embedding covers the JWT minting function
`create_jwt`, the constant state record `get_state`, the telemetry payload
field layout of `get_payload`, the startup sequence of `main`
(mint credential, apply it, TLS setup, connect, subscribe), and the
credential-rotation-aware publish loop of `main` (lines 243-280), modelled as
an event-trace machine on the tick counter `i`.
-/

namespace IotlabEdge

/-- The JWT credential minted by `create_jwt`: issued-at, expiry, audience
claim and the signature produced by the signing library.  Times are modelled
as seconds (`Nat`). -/
structure Credential where
  iat : Nat
  exp : Nat
  aud : String
  signature : String
  deriving Repr, DecidableEq

/-- The two startup-fatal mint failures of the token minter. -/
inductive MintError where
  | KeyFormatError
  | UnsupportedAlgorithmError
  deriving Repr, DecidableEq

/-- Modelled from the spec: the JWT signing library's key-format check is not
part of this repository; the spec states only that malformed key content
(e.g. empty content) fails with `KeyFormatError`.  We model the check as
"content is non-empty". -/
def keyMatchesFormat (key : String) : Bool :=
  !key.isEmpty

/-- The fixed validity window of a minted credential, from
`datetime.timedelta(minutes=60)` at line 54, in seconds. -/
def jwtValiditySeconds : Nat := 60 * 60

/-- `create_jwt(project_id, key_file, algorithm)` from lines 35-66.
The token dict sets `iat = now`, `exp = now + 60 minutes`, `aud = project_id`
(lines 50-57); the signing call `jwt.encode(token, key, algorithm)` is an
external library, so its error behavior is modelled from the spec: an
algorithm outside {RS256, ES256} fails with `UnsupportedAlgorithmError`
(checked first, as the library resolves the algorithm before the key), and
key content not matching the expected format fails with `KeyFormatError`.
The file read at lines 60-61 is modelled by passing the key content directly;
the two `utcnow()` calls are modelled as one instant `now`. -/
def create_jwt (project_id : String) (key : String) (algorithm : String)
    (now : Nat) : Except MintError Credential :=
  if algorithm = "RS256" ∨ algorithm = "ES256" then
    if keyMatchesFormat key then
      Except.ok { iat := now, exp := now + jwtValiditySeconds,
                  aud := project_id, signature := algorithm ++ ":" ++ key }
    else
      Except.error MintError.KeyFormatError
  else
    Except.error MintError.UnsupportedAlgorithmError

/-- The device state record `{power, version}` published on the state topic. -/
structure StateRecord where
  power : Bool
  version : Nat
  deriving Repr, DecidableEq

/-- `get_state()` from lines 102-105: always `power = True`,
`version = 20201019`. -/
def get_state : StateRecord :=
  { power := true, version := 20201019 }

/-- The recognized command-line configuration of `parse_command_line_args`
(lines 107-155).  `key_file` holds the content read from the key file path. -/
structure Config where
  project_id : String
  registry_id : String
  device_id : String
  key_file : String
  algorithm : String
  cloud_region : String
  ca_certs : String
  num_messages : Nat
  message_type : String
  mqtt_bridge_hostname : String
  mqtt_bridge_port : Nat
  deriving Repr, DecidableEq

/-- The outbound publish topic, selected once at startup from the message
type (lines 213-215). -/
def mqtt_topic (cfg : Config) : String :=
  "/devices/" ++ cfg.device_id ++ "/" ++
    (if cfg.message_type = "event" then "events" else "state")

/-- The dedicated state topic (line 239). -/
def state_topic (cfg : Config) : String :=
  "/devices/" ++ cfg.device_id ++ "/state"

/-- The inbound configuration topic (line 230). -/
def mqtt_config_topic (cfg : Config) : String :=
  "/devices/" ++ cfg.device_id ++ "/config"

/-- The inbound command topic with wildcard suffix (line 234). -/
def mqtt_command_topic (cfg : Config) : String :=
  "/devices/" ++ cfg.device_id ++ "/commands/#"

/-- The field names of the record built by `get_payload()` (lines 283-299),
in insertion order.  The field values (wall-clock time, environment, random
draws) are opaque to the embedding. -/
def get_payload_fields : List String :=
  ["datetime", "module", "channel0", "channel1", "channel2", "channel3",
   "channel4", "channel5", "channel6", "channel7", "channel8", "channel9"]

/-- The field names of the telemetry payload actually passed to
`client.publish` in each loop iteration, mirroring the assignments at lines
249-251: the dict with `timestamp`, `device`, `temperature` is built, `geo1`
is added, and then the whole variable is rebound to `get_payload()`. -/
def telemetry_payload_fields : List String :=
  let payload := ["timestamp", "device", "temperature"]
  let payload := payload ++ ["geo1"]
  let payload := get_payload_fields
  payload

/-- Observable operations of the client, used to build per-iteration and
startup traces. -/
inductive Event where
  | publishTelemetry (topic : String) (fields : List String) (qos : Nat)
  | sleepSecs (secs : Nat)
  | incrTick (newValue : Nat)
  | evalRotateCond (tickValue : Nat) (fired : Bool)
  | publishState (topic : String) (record : StateRecord) (qos : Nat)
  | mintJwt
  | applyCredential (username : String)
  | tlsSetEv (caCerts : String)
  | connectBridge (host : String) (port : Nat)
  | subscribeTopic (topic : String) (qos : Nat)
  deriving Repr, DecidableEq

/-- Event classifiers. -/
def isTelemetryEv : Event → Bool
  | Event.publishTelemetry _ _ _ => true
  | _ => false

def isIncrEv : Event → Bool
  | Event.incrTick _ => true
  | _ => false

def isEvalEv : Event → Bool
  | Event.evalRotateCond _ _ => true
  | _ => false

def isStateEv : Event → Bool
  | Event.publishState _ _ _ => true
  | _ => false

def isMintEv : Event → Bool
  | Event.mintJwt => true
  | _ => false

def isApplyCredEv : Event → Bool
  | Event.applyCredential _ => true
  | _ => false

def isConnectEv : Event → Bool
  | Event.connectBridge _ _ => true
  | _ => false

/-- Fields of a telemetry publish event, if any. -/
def telFieldsOf : Event → Option (List String)
  | Event.publishTelemetry _ fields _ => some fields
  | _ => none

/-- State record of a state publish event, if any. -/
def stateRecordOf : Event → Option StateRecord
  | Event.publishState _ record _ => some record
  | _ => none

/-- Username of a credential application event, if any. -/
def usernameOf : Event → Option String
  | Event.applyCredential u => some u
  | _ => none

/-- One iteration of the publish loop (lines 244-274), entered with tick
counter `i`.  In source order: publish the telemetry payload at QoS 1
(lines 247-257), sleep 5 or 10 seconds by message type (line 263), increment
the counter (line 266), evaluate `(i + 1) % 5 == 0` on the incremented value
(line 267); when it holds, publish `get_state()` to the state topic at QoS 1
(lines 268-269) and re-mint and re-apply the credential with username
`unused` (lines 271-274). -/
def iterEvents (cfg : Config) (i : Nat) : List Event :=
  let i' := i + 1
  let fired := (i' + 1) % 5 == 0
  [Event.publishTelemetry (mqtt_topic cfg) telemetry_payload_fields 1,
   Event.sleepSecs (if cfg.message_type = "event" then 5 else 10),
   Event.incrTick i',
   Event.evalRotateCond i' fired] ++
  (if fired then
     [Event.publishState (state_topic cfg) get_state 1,
      Event.mintJwt,
      Event.applyCredential "unused"]
   else [])

/-- The per-iteration traces of `n` loop iterations starting with tick
counter `i` (the counter grows by exactly one per iteration, line 266). -/
def runIters (cfg : Config) (i : Nat) : Nat → List (List Event)
  | 0 => []
  | n + 1 => iterEvents cfg i :: runIters cfg (i + 1) n

/-- The flat event trace of `n` loop iterations starting at counter `i`. -/
def loopTrace (cfg : Config) (i : Nat) : Nat → List Event
  | 0 => []
  | n + 1 => iterEvents cfg i ++ loopTrace cfg (i + 1) n

/-- The loop guard at line 244 is the literal `while True`: it inspects
neither the configuration (in particular not `num_messages`) nor the tick
counter. -/
def loopCond (_cfg : Config) (_i : Nat) : Bool :=
  true

/-- Fuel-bounded execution of the publish loop: `some i` means the loop
exited with final counter `i` within the given fuel, `none` means it was
still running when the fuel ran out. -/
def loopRunFuel (cfg : Config) (i : Nat) : Nat → Option Nat
  | 0 => none
  | fuel + 1 =>
    if loopCond cfg i then loopRunFuel cfg (i + 1) fuel else some i

/-- The startup events of `main` once the initial mint succeeded, in source
order: `username_pw_set` with username `unused` and the freshly minted JWT as
password (lines 189-192), TLS setup (line 195), connect to the bridge
(line 207), subscribe to the config topic at QoS 1 (line 232) and to the
command topic at QoS 0 (line 237). -/
def startupEvents (cfg : Config) : List Event :=
  [Event.mintJwt,
   Event.applyCredential "unused",
   Event.tlsSetEv cfg.ca_certs,
   Event.connectBridge cfg.mqtt_bridge_hostname cfg.mqtt_bridge_port,
   Event.subscribeTopic (mqtt_config_topic cfg) 1,
   Event.subscribeTopic (mqtt_command_topic cfg) 0]

/-- The startup of `main` up to the subscriptions: the first action is the
initial `create_jwt` call inside `username_pw_set` (lines 189-192); a mint
exception propagates out of `main` before any other action, so the trace is
empty in the error case. -/
def startupTrace (cfg : Config) (now : Nat) : List Event × Option MintError :=
  match create_jwt cfg.project_id cfg.key_file cfg.algorithm now with
  | Except.error e => ([], some e)
  | Except.ok _ => (startupEvents cfg, none)

/-- Indices (from `j`) of the events satisfying `p` in a trace. -/
def evIndicesFrom (p : Event → Bool) : Nat → List Event → List Nat
  | _, [] => []
  | j, e :: es => (if p e then [j] else []) ++ evIndicesFrom p (j + 1) es

/-- Indices of the events satisfying `p` in a trace. -/
def evIndices (p : Event → Bool) (es : List Event) : List Nat :=
  evIndicesFrom p 0 es

/-- A concrete configuration used to evaluate the model on closed inputs. -/
def cfg0 : Config :=
  { project_id := "proj", registry_id := "reg", device_id := "dev",
    key_file := "PRIVATEKEY", algorithm := "RS256",
    cloud_region := "us-central1", ca_certs := "roots.pem",
    num_messages := 100, message_type := "event",
    mqtt_bridge_hostname := "mqtt.googleapis.com", mqtt_bridge_port := 8883 }

/-- The concrete configuration with an empty (malformed) key content. -/
def cfgEmptyKey : Config :=
  { cfg0 with key_file := "" }

/-! ### Helper lemmas about the loop traces -/

theorem runIters_getD (cfg : Config) :
    ∀ n i k, k < n → (runIters cfg i n).getD k [] = iterEvents cfg (i + k) := by
  intro n
  induction n with
  | zero => intro i k h; omega
  | succ n ih =>
    intro i k h
    cases k with
    | zero => simp [runIters]
    | succ k =>
      have h2 : i + 1 + k = i + (k + 1) := by omega
      simp only [runIters, List.getD_cons_succ]
      rw [ih (i + 1) k (by omega), h2]

theorem iterEvents_any_state (cfg : Config) (i : Nat) :
    (iterEvents cfg i).any isStateEv = ((i + 1 + 1) % 5 == 0) := by
  unfold iterEvents
  by_cases h : (i + 1 + 1) % 5 = 0 <;> simp [h, isStateEv]

theorem iterEvents_countP_tel (cfg : Config) (i : Nat) :
    (iterEvents cfg i).countP isTelemetryEv = 1 := by
  unfold iterEvents
  by_cases h : (i + 1 + 1) % 5 = 0 <;> simp [h, isTelemetryEv, List.countP_cons]

theorem iterEvents_countP_state (cfg : Config) (i : Nat) :
    (iterEvents cfg i).countP isStateEv
      = if (i + 1 + 1) % 5 = 0 then 1 else 0 := by
  unfold iterEvents
  by_cases h : (i + 1 + 1) % 5 = 0 <;> simp [h, isStateEv, List.countP_cons]

theorem iterEvents_countP_mint (cfg : Config) (i : Nat) :
    (iterEvents cfg i).countP isMintEv
      = if (i + 1 + 1) % 5 = 0 then 1 else 0 := by
  unfold iterEvents
  by_cases h : (i + 1 + 1) % 5 = 0 <;> simp [h, isMintEv, List.countP_cons]

theorem iterEvents_countP_apply (cfg : Config) (i : Nat) :
    (iterEvents cfg i).countP isApplyCredEv
      = if (i + 1 + 1) % 5 = 0 then 1 else 0 := by
  unfold iterEvents
  by_cases h : (i + 1 + 1) % 5 = 0 <;> simp [h, isApplyCredEv, List.countP_cons]

theorem loopTrace_countP_tel (cfg : Config) :
    ∀ n i, (loopTrace cfg i n).countP isTelemetryEv = n := by
  intro n
  induction n with
  | zero => intro i; simp [loopTrace]
  | succ n ih =>
    intro i
    rw [loopTrace, List.countP_append, iterEvents_countP_tel, ih (i + 1)]
    omega

theorem loopTrace_countP_fired (cfg : Config) (p : Event → Bool)
    (hp : ∀ i, (iterEvents cfg i).countP p
      = if (i + 1 + 1) % 5 = 0 then 1 else 0) :
    ∀ n i, (loopTrace cfg i n).countP p = (i + n + 1) / 5 - (i + 1) / 5 := by
  intro n
  induction n with
  | zero => intro i; simp [loopTrace]
  | succ n ih =>
    intro i
    rw [loopTrace, List.countP_append, hp i, ih (i + 1)]
    by_cases h : (i + 1 + 1) % 5 = 0 <;> simp [h] <;> omega

theorem loopRunFuel_none (cfg : Config) :
    ∀ fuel i, loopRunFuel cfg i fuel = none := by
  intro fuel
  induction fuel with
  | zero => intro i; rfl
  | succ fuel ih => intro i; simpa [loopRunFuel, loopCond] using ih (i + 1)

theorem iterEvents_num_messages (cfg : Config) (m i : Nat) :
    iterEvents { cfg with num_messages := m } i = iterEvents cfg i := by
  simp [iterEvents, mqtt_topic, state_topic]

theorem loopTrace_num_messages (cfg : Config) (m : Nat) :
    ∀ n i, loopTrace { cfg with num_messages := m } i n = loopTrace cfg i n := by
  intro n
  induction n with
  | zero => intro i; rfl
  | succ n ih =>
    intro i
    rw [loopTrace, loopTrace, iterEvents_num_messages, ih (i + 1)]

theorem runIters_num_messages (cfg : Config) (m : Nat) :
    ∀ n i, runIters { cfg with num_messages := m } i n = runIters cfg i n := by
  intro n
  induction n with
  | zero => intro i; rfl
  | succ n ih =>
    intro i
    rw [runIters, runIters, iterEvents_num_messages, ih (i + 1)]

/-! ### Claim theorems -/

/-- C1: starting from counter 0, the state-publish-and-rotate step fires in
iteration `k` (0-based) exactly when the post-increment counter value `k + 1`
satisfies `((k + 1) + 1) % 5 == 0`; the `incrTick` event of iteration `k`
indeed carries the post-increment value `k + 1`; and over 10 iterations the
set of firing iteration indices is exactly {3, 8}. -/
theorem c1_rotation_fires_iff (cfg : Config) (n k : Nat) (h : k < n) :
    (((runIters cfg 0 n).getD k []).any isStateEv = (((k + 1) + 1) % 5 == 0)
      ∧ Event.incrTick (k + 1) ∈ (runIters cfg 0 n).getD k [])
    ∧ (List.range 10).filter
        (fun j => ((runIters cfg 0 10).getD j []).any isStateEv) = [3, 8] := by
  constructor
  · have h0 : (runIters cfg 0 n).getD k [] = iterEvents cfg k := by
      simpa using runIters_getD cfg n 0 k h
    rw [h0]
    refine ⟨iterEvents_any_state cfg k, ?_⟩
    unfold iterEvents
    by_cases hf : (k + 1 + 1) % 5 = 0 <;> simp [hf]
  · have hc : ∀ j ∈ List.range 10,
        (((runIters cfg 0 10).getD j []).any isStateEv)
          = ((j + 1 + 1) % 5 == 0) := by
      intro j hj
      have h0 : (runIters cfg 0 10).getD j [] = iterEvents cfg j := by
        simpa using runIters_getD cfg 10 0 j (List.mem_range.mp hj)
      rw [h0]
      exact iterEvents_any_state cfg j
    rw [List.filter_congr hc]
    decide

/-- Witness for C1 at the concrete configuration `cfg0`, 10 iterations,
iteration index 3. -/
theorem c1_rotation_fires_iff_witness :
    (((runIters cfg0 0 10).getD 3 []).any isStateEv = (((3 + 1) + 1) % 5 == 0)
      ∧ Event.incrTick (3 + 1) ∈ (runIters cfg0 0 10).getD 3 [])
    ∧ (List.range 10).filter
        (fun j => ((runIters cfg0 0 10).getD j []).any isStateEv) = [3, 8] :=
  c1_rotation_fires_iff cfg0 10 3 (by decide)

/-- C2 counterexample: after the first 4 iterations from counter 0 exactly
one state publish has occurred (the step fired at iteration index 3, where
the counter became 4 and `(4 + 1) % 5 == 0`), contradicting the claim that
0 state publishes have occurred after 4 iterations. -/
theorem c2_counterexample :
    ¬ ((loopTrace cfg0 0 4).countP isStateEv = 0) := by
  decide

/-- C2 (amended): the state-publish/rotation first fires at tick index 3
(the 4th iteration): after 3 iterations there are 3 telemetry publishes and
no state publish, re-mint or credential re-application; after the 4th
iteration there are 4 telemetry publishes, exactly 1 state publish, 1
re-mint and 1 credential re-application; in general after `n` iterations
there are `n` telemetry publishes and `(n + 1) / 5` state publishes and
re-applications, i.e. one every 5th iteration from index 3 on. -/
theorem c2_amended_first_fire (cfg : Config) (n : Nat) :
    (loopTrace cfg 0 3).countP isTelemetryEv = 3
    ∧ (loopTrace cfg 0 3).countP isStateEv = 0
    ∧ (loopTrace cfg 0 3).countP isApplyCredEv = 0
    ∧ (loopTrace cfg 0 4).countP isTelemetryEv = 4
    ∧ (loopTrace cfg 0 4).countP isStateEv = 1
    ∧ (loopTrace cfg 0 4).countP isMintEv = 1
    ∧ (loopTrace cfg 0 4).countP isApplyCredEv = 1
    ∧ (loopTrace cfg 0 n).countP isTelemetryEv = n
    ∧ (loopTrace cfg 0 n).countP isStateEv = (n + 1) / 5
    ∧ (loopTrace cfg 0 n).countP isApplyCredEv = (n + 1) / 5 := by
  refine ⟨loopTrace_countP_tel cfg 3 0, ?_, ?_, loopTrace_countP_tel cfg 4 0,
    ?_, ?_, ?_, loopTrace_countP_tel cfg n 0, ?_, ?_⟩
  · rw [loopTrace_countP_fired cfg isStateEv (iterEvents_countP_state cfg) 3 0]
  · rw [loopTrace_countP_fired cfg isApplyCredEv
      (iterEvents_countP_apply cfg) 3 0]
  · rw [loopTrace_countP_fired cfg isStateEv (iterEvents_countP_state cfg) 4 0]
  · rw [loopTrace_countP_fired cfg isMintEv (iterEvents_countP_mint cfg) 4 0]
  · rw [loopTrace_countP_fired cfg isApplyCredEv
      (iterEvents_countP_apply cfg) 4 0]
  · rw [loopTrace_countP_fired cfg isStateEv (iterEvents_countP_state cfg) n 0]
    omega
  · rw [loopTrace_countP_fired cfg isApplyCredEv
      (iterEvents_countP_apply cfg) n 0]
    omega

/-- C3: for every valid algorithm/key pair, `create_jwt` returns a
credential whose `exp - iat` equals the fixed 60-minute validity window (in
seconds), whose `iat` is the minting instant, and whose audience claim is
the given project identity. -/
theorem c3_mint_validity_window (project key alg : String) (now : Nat)
    (halg : alg = "RS256" ∨ alg = "ES256")
    (hkey : keyMatchesFormat key = true) :
    ∃ cred : Credential,
      create_jwt project key alg now = Except.ok cred
      ∧ cred.exp - cred.iat = 60 * 60
      ∧ cred.iat = now
      ∧ cred.aud = project := by
  have h : create_jwt project key alg now
      = Except.ok { iat := now, exp := now + jwtValiditySeconds,
                    aud := project, signature := alg ++ ":" ++ key } := by
    unfold create_jwt
    rw [if_pos halg, if_pos hkey]
  refine ⟨_, h, ?_, rfl, rfl⟩
  show now + jwtValiditySeconds - now = 60 * 60
  unfold jwtValiditySeconds
  omega

/-- Witness for C3 at a concrete valid pair. -/
theorem c3_mint_validity_window_witness :
    ∃ cred : Credential,
      create_jwt "proj" "PRIVATEKEY" "RS256" 1000 = Except.ok cred
      ∧ cred.exp - cred.iat = 60 * 60
      ∧ cred.iat = 1000
      ∧ cred.aud = "proj" :=
  c3_mint_validity_window "proj" "PRIVATEKEY" "RS256" 1000 (Or.inl rfl)
    (by decide)

/-- C4: the publish loop never exits within any amount of fuel, from any
counter, for any configuration; and both the flat trace and the
per-iteration traces are unchanged when only `num_messages` differs: the
loop ignores the configured message count. -/
theorem c4_loop_unbounded (cfg : Config) (i fuel n m : Nat) :
    loopRunFuel cfg i fuel = none
    ∧ loopTrace { cfg with num_messages := m } 0 n = loopTrace cfg 0 n
    ∧ runIters { cfg with num_messages := m } 0 n = runIters cfg 0 n :=
  ⟨loopRunFuel_none cfg fuel i, loopTrace_num_messages cfg m n 0,
   runIters_num_messages cfg m n 0⟩

/-- C5: within each loop iteration the telemetry publish is the unique event
at trace index 0, the tick increment the unique event at index 2 (the sleep
sits at index 1), and the rotate-condition evaluation the unique event at
index 3; hence the strict intra-iteration order telemetry publish, then
increment, then conditional evaluation holds in every iteration. -/
theorem c5_intra_iteration_order (cfg : Config) (i : Nat) :
    evIndices isTelemetryEv (iterEvents cfg i) = [0]
    ∧ evIndices isIncrEv (iterEvents cfg i) = [2]
    ∧ evIndices isEvalEv (iterEvents cfg i) = [3] := by
  unfold evIndices iterEvents
  by_cases h : (i + 1 + 1) % 5 = 0 <;>
    simp [h, evIndicesFrom, isTelemetryEv, isIncrEv, isEvalEv]

/-- C6: with a recognized algorithm and empty (malformed) key content, the
startup fails with `KeyFormatError` and the startup trace is empty: in
particular it contains no connect event, so the failure precedes any
network connection attempt. -/
theorem c6_empty_key_fails_before_connect (cfg : Config) (now : Nat)
    (halg : cfg.algorithm = "RS256" ∨ cfg.algorithm = "ES256")
    (hkey : cfg.key_file = "") :
    (startupTrace cfg now).2 = some MintError.KeyFormatError
    ∧ (startupTrace cfg now).1 = []
    ∧ (startupTrace cfg now).1.countP isConnectEv = 0 := by
  have hfmt : keyMatchesFormat "" = false := by decide
  have hmint : create_jwt cfg.project_id cfg.key_file cfg.algorithm now
      = Except.error MintError.KeyFormatError := by
    unfold create_jwt
    rw [if_pos halg, hkey, hfmt]
    simp
  simp [startupTrace, hmint]

/-- Witness for C6 at the concrete configuration with empty key content. -/
theorem c6_empty_key_witness :
    (startupTrace cfgEmptyKey 0).2 = some MintError.KeyFormatError
    ∧ (startupTrace cfgEmptyKey 0).1 = []
    ∧ (startupTrace cfgEmptyKey 0).1.countP isConnectEv = 0 :=
  c6_empty_key_fails_before_connect cfgEmptyKey 0 (Or.inl rfl) rfl

/-- C7: `create_jwt` fails with `UnsupportedAlgorithmError` for every
algorithm value outside {RS256, ES256}, whatever the key content. -/
theorem c7_unsupported_algorithm (project key alg : String) (now : Nat)
    (h1 : alg ≠ "RS256") (h2 : alg ≠ "ES256") :
    create_jwt project key alg now
      = Except.error MintError.UnsupportedAlgorithmError := by
  have h : ¬ (alg = "RS256" ∨ alg = "ES256") := by
    rintro (h | h)
    · exact h1 h
    · exact h2 h
  unfold create_jwt
  rw [if_neg h]

/-- Witness for C7 at the unsupported algorithm value HS256. -/
theorem c7_unsupported_algorithm_witness :
    create_jwt "proj" "PRIVATEKEY" "HS256" 0
      = Except.error MintError.UnsupportedAlgorithmError :=
  c7_unsupported_algorithm "proj" "PRIVATEKEY" "HS256" 0 (by decide)
    (by decide)

/-- C8: in every iteration the numbers of state publishes, credential
re-mints and credential re-applications coincide (so whenever the state
publish fires, a fresh credential is minted and applied in that same
iteration, and never otherwise); every credential application in the loop
carries username `unused`; and the startup also applies the credential with
username `unused`. -/
theorem c8_rotation_username (cfg : Config) (i : Nat) :
    (iterEvents cfg i).countP isApplyCredEv
      = (iterEvents cfg i).countP isStateEv
    ∧ (iterEvents cfg i).countP isMintEv
      = (iterEvents cfg i).countP isStateEv
    ∧ ((iterEvents cfg i).filterMap usernameOf).all
        (fun u => u == "unused") = true
    ∧ Event.applyCredential "unused" ∈ startupEvents cfg
    ∧ ((startupEvents cfg).filterMap usernameOf).all
        (fun u => u == "unused") = true := by
  refine ⟨?_, ?_, ?_, ?_, ?_⟩
  · rw [iterEvents_countP_apply, iterEvents_countP_state]
  · rw [iterEvents_countP_mint, iterEvents_countP_state]
  · unfold iterEvents
    by_cases h : (i + 1 + 1) % 5 = 0 <;> simp [h, usernameOf]
  · simp [startupEvents]
  · simp [startupEvents, usernameOf]

/-- C9: the telemetry payload actually published in every iteration is
exactly the `get_payload` record, with fields datetime, module, channel0
through channel9: the payload variable is rebound to `get_payload()` just
before the publish call, so the record with timestamp, device, temperature
and geo1 built earlier in the iteration is never published. -/
theorem c9_published_payload (cfg : Config) (i : Nat) :
    telemetry_payload_fields = get_payload_fields
    ∧ (iterEvents cfg i).filterMap telFieldsOf = [get_payload_fields]
    ∧ get_payload_fields
        = ["datetime", "module", "channel0", "channel1", "channel2",
           "channel3", "channel4", "channel5", "channel6", "channel7",
           "channel8", "channel9"]
    ∧ "timestamp" ∉ telemetry_payload_fields
    ∧ "device" ∉ telemetry_payload_fields
    ∧ "temperature" ∉ telemetry_payload_fields
    ∧ "geo1" ∉ telemetry_payload_fields := by
  refine ⟨rfl, ?_, rfl, by decide, by decide, by decide, by decide⟩
  unfold iterEvents
  by_cases h : (i + 1 + 1) % 5 = 0 <;>
    simp [h, telFieldsOf, telemetry_payload_fields]

/-- C10: `get_state` is the constant record with `power = true` and
`version = 20201019`, and every state record published by any loop
iteration is exactly this record. -/
theorem c10_state_constant (cfg : Config) (i : Nat) :
    get_state.power = true
    ∧ get_state.version = 20201019
    ∧ (iterEvents cfg i).filterMap stateRecordOf
        = (if (i + 1 + 1) % 5 == 0 then [get_state] else [])
    ∧ ((iterEvents cfg i).filterMap stateRecordOf).all
        (fun st => decide (st = get_state)) = true := by
  refine ⟨rfl, rfl, ?_, ?_⟩ <;>
  · unfold iterEvents
    by_cases h : (i + 1 + 1) % 5 = 0 <;> simp [h, stateRecordOf]

end IotlabEdge
